import Mathlib

/-!
Shallow embedding of the HiveMind core (task manager, orchestrator scaling,
decomposer/worker broker protocol, hybrid memory tiers) and verification of
the spec claims against it.  Each definition mirrors one Go function of the
repository; Go `float64` values that are only compared or averaged are
modelled as `ℚ`, machine integers as `Int`/`Nat`, wall-clock instants as
numbers, and fallible calls as `Except`/`Option` or explicit outcome flags.
-/

set_option maxHeartbeats 1000000

namespace HiveMind

/-! ## Task model — src/agents/task.go -/

/-- Go `TaskStatus` string constants. -/
inductive TaskStatus where
  | pending
  | running
  | complete
  | failed
  | cancelled
deriving DecidableEq

/-- Go `Task` struct.  The opaque `Input`/`Output` maps are modelled as
association lists; `time.Time`/`time.Duration` values as `Nat` instants and
second counts; the `error` field as `Option String`. -/
structure Task where
  id : String
  type : String
  description : String
  input : List (String × String)
  output : List (String × String)
  status : TaskStatus
  priority : Int
  createdAt : Nat
  startedAt : Option Nat
  finishedAt : Option Nat
  assignedTo : String
  err : Option String
  retries : Nat
  maxRetries : Nat
  timeout : Nat
  dependencies : List String
deriving DecidableEq

/-- Go `Task.Start`: unconditionally stamps `StartedAt := now` and sets the
status to running (no check of the current status). -/
def Task.start (now : Nat) (t : Task) : Task :=
  { t with startedAt := some now, status := TaskStatus.running }

/-- Go `Task.Complete`: unconditionally stamps `FinishedAt := now` and sets
the status to complete. -/
def Task.complete (now : Nat) (t : Task) : Task :=
  { t with finishedAt := some now, status := TaskStatus.complete }

/-- Go `Task.Fail`: unconditionally stamps `FinishedAt := now`, sets the
status to failed and records the error. -/
def Task.fail (now : Nat) (e : String) (t : Task) : Task :=
  { t with finishedAt := some now, status := TaskStatus.failed, err := some e }

/-- Go `Task.Cancel`: unconditionally stamps `FinishedAt := now` and sets the
status to cancelled. -/
def Task.cancel (now : Nat) (t : Task) : Task :=
  { t with finishedAt := some now, status := TaskStatus.cancelled }

/-- Go `Task.CanRetry`. -/
def Task.canRetry (t : Task) : Bool :=
  t.status = TaskStatus.failed && t.retries < t.maxRetries

/-! ## TaskManager — src/unnamed/part_010

The Go struct holds `tasks map[string]*Task` and `taskQueue []*Task`, both
pointing at the same heap objects.  The functional model keeps the map as an
association list and the queue as a list of task values; every mutation of a
task writes through to both, mirroring the pointer aliasing. -/

structure TaskManager where
  tasks : List (String × Task)
  taskQueue : List Task
deriving DecidableEq

/-- Lookup in the Go `tasks` map (association-list reading of the map). -/
def lookupTask : List (String × Task) → String → Option Task
  | [], _ => none
  | kv :: rest, taskID => if kv.1 = taskID then some kv.2 else lookupTask rest taskID

/-- Write-through of a pointer mutation into the `tasks` map. -/
def setTaskInMap (tasks : List (String × Task)) (taskID : String) (t : Task) :
    List (String × Task) :=
  tasks.map (fun kv => if kv.1 = taskID then (kv.1, t) else kv)

/-- Go `TaskManager.AddTask`: duplicate-id insertion is rejected, otherwise
the task is recorded in the map and appended to the queue. -/
def addTask (tm : TaskManager) (t : Task) : Except String TaskManager :=
  if tm.tasks.any (fun kv => kv.1 = t.id) then
    Except.error "tarefa ja existe"
  else
    Except.ok { tasks := tm.tasks ++ [(t.id, t)], taskQueue := tm.taskQueue ++ [t] }

/-- The eligibility test of the `GetNextTask` loop:
`task.AssignedTo == "" || task.AssignedTo == agentID`. -/
def assignable (agentID : String) (t : Task) : Bool :=
  t.assignedTo = "" || t.assignedTo = agentID

/-- The Go loop `for i, task := range tm.taskQueue` with removal of the
first hit: returns the first element satisfying `p` together with the queue
without it. -/
def extractFirst (p : Task → Bool) : List Task → Option (Task × List Task)
  | [] => none
  | t :: rest =>
    if p t then some (t, rest)
    else
      match extractFirst p rest with
      | none => none
      | some (t', rest') => some (t', t :: rest')

/-- Go `TaskManager.GetNextTask`: scans the queue in insertion order for the
first task whose `AssignedTo` is empty or equals the agent, removes it from
the queue, assigns it (writing through to the map) and returns it. -/
def getNextTask (tm : TaskManager) (agentID : String) : Option Task × TaskManager :=
  match extractFirst (assignable agentID) tm.taskQueue with
  | none => (none, tm)
  | some (t, rest) =>
    let t' := { t with assignedTo := agentID }
    (some t', { tasks := setTaskInMap tm.tasks t.id t', taskQueue := rest })

/-- Go `TaskManager.UpdateTaskStatus`: if the id exists the status is set
unconditionally (through the shared pointer, hence also visible in queue
entries with that id); an unknown id is a no-op. -/
def updateTaskStatus (tm : TaskManager) (taskID : String) (status : TaskStatus) :
    TaskManager :=
  match lookupTask tm.tasks taskID with
  | none => tm
  | some t =>
    { tasks := setTaskInMap tm.tasks taskID { t with status := status },
      taskQueue := tm.taskQueue.map
        (fun q => if q.id = taskID then { q with status := status } else q) }

/-! ## Orchestrator and scaling — src/unnamed/part_002

Metric values (Go `float64`) are modelled as `ℚ`; the Go code only
accumulates, divides and compares them, which `ℚ` reproduces exactly.
Wall-clock instants are `ℚ` seconds. -/

/-- Scaling threshold constants of part_002 (`cpuThreshold` 80.0,
`memoryThreshold` 80.0, `tasksThreshold` 100, `errorThreshold` 5.0). -/
def cpuThreshold : ℚ := 80

/-- Go `memoryThreshold = 80.0`. -/
def memoryThreshold : ℚ := 80

/-- Go `tasksThreshold = 100`. -/
def tasksThreshold : Int := 100

/-- Go `errorThreshold = 5.0`. -/
def errorThreshold : ℚ := 5

/-- Go `cooldownPeriod = 300` seconds. -/
def cooldownPeriod : ℚ := 300

/-- Go `SystemMetrics`. -/
structure SystemMetrics where
  cpuUsage : ℚ
  memoryUsage : ℚ
  taskCount : Int
  errorRate : ℚ
deriving DecidableEq

/-- Go `AgentMetrics` (`Memory` is a `uint64` byte count). -/
structure AgentMetrics where
  agentName : String
  cpu : ℚ
  memory : Nat
  tasksInQueue : Int
  responseTime : ℚ
  errorRate : ℚ
  lastUpdated : Int
deriving DecidableEq

/-- Go `AgentStruct` — src/unnamed/part_005. -/
structure AgentStruct where
  id : String
  name : String
  role : String
  goal : String
  allowDelegation : Bool
  model : String
  backstory : String
deriving DecidableEq

/-- Go `AgentStruct.Clone`: builds a new struct copying every field,
including `ID`. -/
def AgentStruct.clone (a : AgentStruct) : AgentStruct :=
  { id := a.id, name := a.name, role := a.role, goal := a.goal,
    allowDelegation := a.allowDelegation, model := a.model,
    backstory := a.backstory }

/-- Go `AgentInstance`. -/
structure AgentInstance where
  agent : AgentStruct
  lastScaled : ℚ
  metrics : AgentMetrics
deriving DecidableEq

/-- The zero-valued `&AgentMetrics{AgentName: name}` literal used when an
instance is registered or cloned. -/
def initMetrics (name : String) : AgentMetrics :=
  { agentName := name, cpu := 0, memory := 0, tasksInQueue := 0,
    responseTime := 0, errorRate := 0, lastUpdated := 0 }

/-- Go `OrchestratorInfrastructureAgent` (the broker connection fields are
not part of the scaling logic).  The `instances` map is an association list
keyed by agent name. -/
structure Orchestrator where
  instances : List (String × List AgentInstance)
  lastScaleTime : ℚ
  metrics : SystemMetrics
deriving DecidableEq

/-- The threshold disjunction of `CheckScaling`:
`cpu > 80 || memory > 80 || tasks > 100 || errorRate > 5` (all strict). -/
def overThreshold (m : SystemMetrics) : Prop :=
  cpuThreshold < m.cpuUsage ∨ memoryThreshold < m.memoryUsage ∨
    tasksThreshold < m.taskCount ∨ errorThreshold < m.errorRate

instance overThresholdDec (m : SystemMetrics) : Decidable (overThreshold m) := by
  unfold overThreshold
  infer_instance

/-- Go `OrchestratorInfrastructureAgent.CheckScaling`: returns false while
the cooldown has not elapsed; otherwise, if any system metric is over its
threshold it stamps `lastScaleTime := now` and returns true. -/
def checkScaling (now : ℚ) (o : Orchestrator) : Bool × Orchestrator :=
  if now - o.lastScaleTime < cooldownPeriod then (false, o)
  else if overThreshold o.metrics then (true, { o with lastScaleTime := now })
  else (false, o)

/-- Go `OrchestratorInfrastructureAgent.UpdateMetrics`. -/
def updateSystemMetrics (o : Orchestrator) (m : SystemMetrics) : Orchestrator :=
  { o with metrics := m }

/-- Go `OrchestratorInfrastructureAgent.RegisterAgent`: appends a fresh
instance for the agent under its name key. -/
def registerAgentAt (now : ℚ) (a : AgentStruct) (o : Orchestrator) : Orchestrator :=
  let inst : AgentInstance :=
    { agent := a, lastScaled := now, metrics := initMetrics a.name }
  if o.instances.any (fun kv => kv.1 = a.name) then
    { o with instances :=
        (o.instances.map (fun kv => if kv.1 = a.name then (kv.1, kv.2 ++ [inst]) else kv)) }
  else
    { o with instances := o.instances ++ [(a.name, [inst])] }

/-- The per-type hot test of `ScaleSystem`: averages the instances' metrics
and compares each average strictly against the same thresholds.  For an
empty instance list every average is `0/0`; in Go that is `NaN` and every
comparison is false, and in `ℚ` it is `0` with the same outcome. -/
def hotInstances (insts : List AgentInstance) : Prop :=
  cpuThreshold < (insts.map (fun i => i.metrics.cpu)).sum / (insts.length : ℚ) ∨
  memoryThreshold < (insts.map (fun i => (i.metrics.memory : ℚ))).sum / (insts.length : ℚ) ∨
  (tasksThreshold : ℚ) <
      ((((insts.map (fun i => i.metrics.tasksInQueue)).sum : Int) : ℚ)) / (insts.length : ℚ) ∨
  errorThreshold < (insts.map (fun i => i.metrics.errorRate)).sum / (insts.length : ℚ)

instance hotInstancesDec (insts : List AgentInstance) : Decidable (hotInstances insts) := by
  unfold hotInstances
  infer_instance

/-- The per-type body of the `ScaleSystem` loop: when the type is hot, one
clone of `instances[0]` is appended with fresh zero metrics.  The empty case
is unreachable because `hotInstances [] = false`. -/
def scaleType (now : ℚ) (insts : List AgentInstance) : List AgentInstance :=
  if hotInstances insts then
    match insts with
    | [] => []
    | base :: _ =>
      insts ++ [{ agent := base.agent.clone, lastScaled := now,
                  metrics := initMetrics base.agent.clone.name }]
  else insts

/-- Go `OrchestratorInfrastructureAgent.ScaleSystem`: a no-op unless
`CheckScaling` fires; on firing, every agent type whose averaged metrics are
over threshold receives exactly one clone. -/
def scaleSystem (now : ℚ) (o : Orchestrator) : Orchestrator :=
  if (checkScaling now o).1 then
    { (checkScaling now o).2 with instances :=
        (((checkScaling now o).2.instances).map (fun kv => (kv.1, scaleType now kv.2))) }
  else (checkScaling now o).2

/-- Number of instances registered for a type. -/
def typeCount (o : Orchestrator) (ty : String) : Nat :=
  match o.instances.find? (fun kv => kv.1 = ty) with
  | some kv => kv.2.length
  | none => 0

/-- One externally observable step of the orchestrator: a metrics push, an
agent registration, or a `ScaleSystem` call at a wall-clock instant. -/
inductive OrchStep where
  | pushMetrics (m : SystemMetrics)
  | registerAgent (a : AgentStruct) (now : ℚ)
  | scale (now : ℚ)

/-- Apply one step. -/
def applyStep (o : Orchestrator) : OrchStep → Orchestrator
  | OrchStep.pushMetrics m => updateSystemMetrics o m
  | OrchStep.registerAgent a now => registerAgentAt now a o
  | OrchStep.scale now => scaleSystem now o

/-- Run a list of steps from a state. -/
def runSteps (o : Orchestrator) : List OrchStep → Orchestrator
  | [] => o
  | s :: rest => runSteps (applyStep o s) rest

/-- The `ScaleSystem` call instants of a step list. -/
def scaleTimes : List OrchStep → List ℚ
  | [] => []
  | OrchStep.scale t :: rest => t :: scaleTimes rest
  | _ :: rest => scaleTimes rest

/-- Modelled from the spec: the scaling condition claimed in §4.7 of the
spec — cooldown elapsed and `cpu ≥ 80 ∨ memory ≥ 85 ∨ tasks ≥ 100 ∨
error_rate ≥ 0.05` — stated for comparison with `checkScaling`. -/
def specScalingCondition (lastScaleAt now : ℚ) (m : SystemMetrics) : Prop :=
  cooldownPeriod ≤ now - lastScaleAt ∧
    (80 ≤ m.cpuUsage ∨ 85 ≤ m.memoryUsage ∨
      100 ≤ m.taskCount ∨ (1 / 20 : ℚ) ≤ m.errorRate)

/-! ## Broker delivery outcomes

A consumer finishes each delivery with exactly one of `Ack(false)` or
`Nack(false, requeue)`. -/

/-- The terminal broker call made for a delivery. -/
inductive DeliveryAction where
  | ack
  | nack (requeue : Bool)
deriving DecidableEq

/-! ## Worker (LLMAgent) — src/unnamed/part_001 -/

/-- Go `SubTask` (shared between part_001 and part_011).  The opaque
`Parameters` map is an association list of strings. -/
structure SubTask where
  id : String
  parentID : String
  name : String
  description : String
  type : String
  parameters : List (String × String)
  status : String
deriving DecidableEq

/-- The `details` sub-map of the Go `processTask` result. -/
structure ResultDetails where
  agentType : String
  taskType : String
  parameters : List (String × String)
deriving DecidableEq

/-- The `Result` map built by Go `processTask`. -/
structure ResultPayload where
  processingTime : Nat
  analysis : String
  details : ResultDetails
deriving DecidableEq

/-- Go `TaskResult` (`CompletedAt` as a `Nat` instant in place of the
RFC3339 string). -/
structure TaskResult where
  taskID : String
  parentID : String
  agentID : String
  status : String
  result : ResultPayload
  completedAt : Nat
deriving DecidableEq

/-- Go `LLMAgent` (connection and queue-name fields elided; the queues are
the fixed `llm_tasks`/`llm_results`). -/
structure LLMAgent where
  id : String
  type : String
deriving DecidableEq

/-- Go `LLMAgent.processTask`: sleeps `2 + now mod 3` seconds and builds a
completed `TaskResult` echoing the task's parameters. -/
def processTask (now : Nat) (a : LLMAgent) (task : SubTask) : TaskResult :=
  let processingTime := 2 + now % 3
  { taskID := task.id, parentID := task.parentID, agentID := a.id,
    status := "completed", completedAt := now + processingTime,
    result :=
      { processingTime := processingTime,
        analysis := "Analise da tarefa " ++ task.name ++ " concluida com sucesso",
        details :=
          { agentType := a.type, taskType := task.type,
            parameters := task.parameters } } }

/-- Everything observable about how the worker finished one delivery. -/
structure WorkerOutcome where
  action : DeliveryAction
  published : Option TaskResult
  processed : Bool
deriving DecidableEq

/-- The per-delivery body of Go `LLMAgent.Start`: `decoded` is the result of
`json.Unmarshal` of the body, `publishOk` whether the `Publish` to
`llm_results` succeeds (marshalling a `TaskResult` always succeeds).
Decode failure and type mismatch both nack with requeue without processing;
a processed task is acked only after a successful result publish. -/
def handleTaskDelivery (a : LLMAgent) (decoded : Option SubTask) (publishOk : Bool)
    (now : Nat) : WorkerOutcome :=
  match decoded with
  | none => { action := DeliveryAction.nack true, published := none, processed := false }
  | some task =>
    if task.type ≠ a.type then
      { action := DeliveryAction.nack true, published := none, processed := false }
    else
      let result := processTask now a task
      if publishOk then
        { action := DeliveryAction.ack, published := some result, processed := true }
      else
        { action := DeliveryAction.nack true, published := none, processed := true }

/-! ## Decomposer (LLMRouter) — src/unnamed/part_011 -/

/-- Go `TaskRequest`. -/
structure TaskRequest where
  id : String
  description : String
  parameters : List (String × String)
deriving DecidableEq

/-- Go `LLMRouter.mockLLMBreakdown`: five fixed typed subtasks with
`ParentID` the request id.  The RFC3339 deadline strings are modelled as the
stringified absolute second counts `now + k·3600`. -/
def mockLLMBreakdown (now : Nat) (task : TaskRequest) : List SubTask :=
  [ { id := task.id ++ "-1", parentID := task.id, name := "Analise de Requisitos",
      description := "Analisar os requisitos e contexto da tarefa", type := "analysis",
      parameters := [("priority", "high"), ("deadline", toString (now + 3600))],
      status := "pending" },
    { id := task.id ++ "-2", parentID := task.id, name := "Pesquisa",
      description := "Realizar pesquisa sobre o tema", type := "research",
      parameters := [("priority", "high"), ("deadline", toString (now + 7200))],
      status := "pending" },
    { id := task.id ++ "-3", parentID := task.id, name := "Desenvolvimento",
      description := "Desenvolver a solucao", type := "development",
      parameters := [("priority", "high"), ("deadline", toString (now + 10800))],
      status := "pending" },
    { id := task.id ++ "-4", parentID := task.id, name := "Validacao",
      description := "Validar a solucao desenvolvida", type := "validation",
      parameters := [("priority", "medium"), ("deadline", toString (now + 14400))],
      status := "pending" },
    { id := task.id ++ "-5", parentID := task.id, name := "Documentacao",
      description := "Documentar a solucao", type := "documentation",
      parameters := [("priority", "medium"), ("deadline", toString (now + 18000))],
      status := "pending" } ]

/-- Everything observable about how the router finished one `llm_input`
delivery: the terminal broker call and the subtasks that reached the
`llm_tasks` queue. -/
structure RouterOutcome where
  action : DeliveryAction
  published : List SubTask
deriving DecidableEq

/-- The publish loop of `LLMRouter.Start`: `pubOk i` says whether publishing
the `i`-th subtask succeeds.  A failed publish is logged and skipped
(`continue`); the loop never aborts. -/
def publishEach (pubOk : Nat → Bool) : List SubTask → Nat → List SubTask
  | [], _ => []
  | s :: rest, i =>
    if pubOk i then s :: publishEach pubOk rest (i + 1)
    else publishEach pubOk rest (i + 1)

/-- The per-delivery body of Go `LLMRouter.Start`: decode failure nacks with
requeue; otherwise the five subtasks are published one by one (failures
skipped) and the parent delivery is acked unconditionally afterwards. -/
def handleInputDelivery (decoded : Option TaskRequest) (pubOk : Nat → Bool)
    (now : Nat) : RouterOutcome :=
  match decoded with
  | none => { action := DeliveryAction.nack true, published := [] }
  | some task =>
    let subtasks := mockLLMBreakdown now task
    { action := DeliveryAction.ack, published := publishEach pubOk subtasks 0 }

/-! ## Memory model — src/agents/memory (manager.go, semantic.go),
src/unnamed/part_007 (types), part_008 (Mongo), part_009 (Redis) -/

/-- Go `MemoryType`. -/
inductive MemoryType where
  | shortTerm
  | longTerm
deriving DecidableEq

/-- Go `Memory` (part_007): `Importance` as `ℚ`, `Timestamp` as a `Nat`
instant, `TTL` as a second count with 0 meaning unset; the optional opaque
`Metadata` is elided. -/
structure Memory where
  id : String
  agentID : String
  content : String
  type : MemoryType
  importance : ℚ
  timestamp : Nat
  ttl : Nat
  tags : List String
deriving DecidableEq

/-- Go `MemoryConfig` (part_007). -/
structure MemoryConfig where
  redisURL : String
  mongoURL : String
  mongoDB : String
  collection : String
  weaviateURL : String
  weaviateAPIKey : String
  weaviateClass : String
  weaviateBatchSize : Nat
  importanceThreshold : ℚ
  shortTermTTL : Nat
deriving DecidableEq

/-- Go `DefaultMemoryConfig` (part_007): importance threshold 0.7,
short-term TTL 24h. -/
def defaultMemoryConfig : MemoryConfig :=
  { redisURL := "localhost:6379", mongoURL := "mongodb://localhost:27017",
    mongoDB := "agent_memory", collection := "memories",
    weaviateURL := "http://localhost:8080", weaviateAPIKey := "",
    weaviateClass := "Memory", weaviateBatchSize := 100,
    importanceThreshold := 7 / 10, shortTermTTL := 86400 }

/-! ### Mongo long-term tier — src/unnamed/part_008 -/

/-- The Mongo collection: the ordered list of inserted documents. -/
abbrev MongoState := List Memory

/-- Go `MongoMemoryManager.StoreMemory`: stamps `Timestamp := now` and
`InsertOne`s the document.  The collection's unique `_id` index rejects a
duplicate id with a duplicate-key error. -/
def mongoStoreMemory (now : Nat) (st : MongoState) (m : Memory) :
    Except String MongoState :=
  if st.any (fun d => d.id = m.id) then Except.error "duplicate key"
  else Except.ok (st ++ [{ m with timestamp := now }])

/-- The Mongo filter of `MongoMemoryManager.SearchMemories`:
`agent_id` equality, plus — only when the tag list is non-empty — a
`tags: {$in: tags}` clause.  On an array field `$in` matches documents whose
array contains at least one of the given values (any-match). -/
def mongoMatches (agentID : String) (tags : List String) (d : Memory) : Bool :=
  d.agentID = agentID && (tags.isEmpty || tags.any (fun t => d.tags.contains t))

/-- Go `MongoMemoryManager.SearchMemories`: the cursor walk collects every
document matching the filter. -/
def mongoSearchMemories (st : MongoState) (agentID : String) (tags : List String) :
    List Memory :=
  st.filter (mongoMatches agentID tags)

/-! ### Redis short-term tier — src/unnamed/part_009

The Redis keyspace is modelled explicitly: string keys built by the same
`fmt.Sprintf` patterns, a key-value table for the serialized memories
(with absolute expiry instants) and a table of Redis sets for the agent
membership and tag indexes. -/

/-- Go key `memory:<agent>:<id>`. -/
def memoryKey (agentID memoryID : String) : String :=
  "memory:" ++ agentID ++ ":" ++ memoryID

/-- Go key `agent:<agent>:memories`. -/
def agentKey (agentID : String) : String :=
  "agent:" ++ agentID ++ ":memories"

/-- Go key `tag:<agent>:<tag>`. -/
def tagKey (agentID tag : String) : String :=
  "tag:" ++ agentID ++ ":" ++ tag

/-- One Redis string key holding a serialized memory, expiring at
`expireAt` (the JSON round trip is assumed faithful). -/
structure RedisEntry where
  key : String
  value : Memory
  expireAt : Nat
deriving DecidableEq

/-- The Redis keyspace: value keys and set keys. -/
structure RedisState where
  kv : List RedisEntry
  sets : List (String × List String)
deriving DecidableEq

/-- Redis `SET key value EX ttl`: replaces the existing key or creates it. -/
def kvSet (kv : List RedisEntry) (key : String) (v : Memory) (exp : Nat) :
    List RedisEntry :=
  if kv.any (fun e => e.key = key) then
    kv.map (fun e => if e.key = key then { key := key, value := v, expireAt := exp } else e)
  else kv ++ [{ key := key, value := v, expireAt := exp }]

/-- Redis `SMEMBERS key` (a missing key is the empty set). -/
def sMembers (st : RedisState) (key : String) : List String :=
  match st.sets.find? (fun kv => kv.1 = key) with
  | some kv => kv.2
  | none => []

/-- Redis `SADD key member`. -/
def sAdd (st : RedisState) (key member : String) : RedisState :=
  if st.sets.any (fun kv => kv.1 = key) then
    { st with sets :=
        (st.sets.map (fun kv =>
          if kv.1 = key then
            (kv.1, if kv.2.contains member then kv.2 else kv.2 ++ [member])
          else kv)) }
  else { st with sets := st.sets ++ [(key, [member])] }

/-- Redis `SINTER keys...`: members of the first set contained in every
other set; no keys yields the empty set. -/
def sInter (st : RedisState) (keys : List String) : List String :=
  match keys with
  | [] => []
  | k :: rest =>
    (sMembers st k).filter (fun x => rest.all (fun k2 => (sMembers st k2).contains x))

/-- Go `RedisMemoryManager.StoreMemory`: `SET` under `memory:<agent>:<id>`
with TTL (default 24h when the memory's TTL is 0), `SADD` into the agent's
member set, and `SADD` into each tag index. -/
def redisStoreMemory (now : Nat) (st : RedisState) (m : Memory) : RedisState :=
  m.tags.foldl (fun s tag => sAdd s (tagKey m.agentID tag) m.id)
    (sAdd
      { st with kv :=
          (kvSet st.kv (memoryKey m.agentID m.id) m (now + (if m.ttl = 0 then 86400 else m.ttl))) }
      (agentKey m.agentID) m.id)

/-- First entry under a key in the key-value table. -/
def kvFind : List RedisEntry → String → Option RedisEntry
  | [], _ => none
  | e :: rest, key => if e.key = key then some e else kvFind rest key

/-- Go `RedisMemoryManager.GetMemory`: `GET` of the memory key; an expired
or absent key is not found. -/
def redisGetMemory (now : Nat) (st : RedisState) (agentID memoryID : String) :
    Option Memory :=
  match kvFind st.kv (memoryKey agentID memoryID) with
  | some e => if now < e.expireAt then some e.value else none
  | none => none

/-- Go `RedisMemoryManager.SearchMemories`: with tags, `SINTER` of the tag
indexes; without, `SMEMBERS` of the agent set; then each id is fetched and
ids that no longer resolve (expired/deleted) are silently skipped. -/
def redisSearchMemories (now : Nat) (st : RedisState) (agentID : String)
    (tags : List String) : List Memory :=
  let ids :=
    if tags.length > 0 then sInter st (tags.map (tagKey agentID))
    else sMembers st (agentKey agentID)
  ids.filterMap (fun memoryID => redisGetMemory now st agentID memoryID)

/-! ### Weaviate semantic tier — src/agents/memory/semantic.go -/

/-- The property set `SemanticMemoryManager.StoreMemory` writes for each
object of the configured class (the memory's `Type` and `TTL` are not
persisted there). -/
structure WeaviateObject where
  content : String
  agentId : String
  memoryId : String
  importance : ℚ
  timestamp : Nat
  tags : List String
deriving DecidableEq

/-- The projection performed by `SemanticMemoryManager.StoreMemory`. -/
def toObject (m : Memory) : WeaviateObject :=
  { content := m.content, agentId := m.agentID, memoryId := m.id,
    importance := m.importance, timestamp := m.timestamp, tags := m.tags }

/-! ### HybridMemoryManager — src/agents/memory/manager.go -/

/-- The three backing stores. -/
structure HybridState where
  shortTerm : RedisState
  longTerm : MongoState
  semantic : List WeaviateObject
deriving DecidableEq

/-- Whether each backing store's I/O succeeds during one `StoreMemory`
call (a failed call leaves that store unchanged). -/
structure StoreEnv where
  semanticOk : Bool
  shortOk : Bool
  longOk : Bool
deriving DecidableEq

/-- Go `HybridMemoryManager.StoreMemory`: first mirror into Weaviate
(aborting on failure), then place into Mongo iff
`importance ≥ config.ImportanceThreshold`, else into Redis.  The result
pairs the state actually reached with the returned error, if any: a failed
placement write is reported but the semantic write is not rolled back. -/
def hybridStoreMemory (cfg : MemoryConfig) (env : StoreEnv) (now : Nat)
    (st : HybridState) (m : Memory) : HybridState × Option String :=
  if env.semanticOk = false then
    (st, some "erro ao armazenar na memoria semantica")
  else
    let st1 : HybridState := { st with semantic := st.semantic ++ [toObject m] }
    if cfg.importanceThreshold ≤ m.importance then
      if env.longOk = false then
        (st1, some "erro ao armazenar na memoria de longo prazo")
      else
        match mongoStoreMemory now st.longTerm m with
        | Except.error e => (st1, some e)
        | Except.ok docs => ({ st1 with longTerm := docs }, none)
    else
      if env.shortOk = false then
        (st1, some "erro ao armazenar na memoria de curto prazo")
      else
        ({ st1 with shortTerm := redisStoreMemory now st.shortTerm m }, none)

/-- Go `HybridMemoryManager.SearchMemories`: the short-term results followed
by the long-term results (errors of either tier are discarded). -/
def hybridSearchMemories (now : Nat) (st : HybridState) (agentID : String)
    (tags : List String) : List Memory :=
  redisSearchMemories now st.shortTerm agentID tags ++
    mongoSearchMemories st.longTerm agentID tags

/-! ## Concrete fixtures used by counterexamples and witnesses -/

/-- A task as produced by Go `NewTask` (status pending, unassigned), with a
chosen priority and creation instant. -/
def mkTask (taskID : String) (priority : Int) (createdAt : Nat) : Task :=
  { id := taskID, type := "generic", description := "d", input := [], output := [],
    status := TaskStatus.pending, priority := priority, createdAt := createdAt,
    startedAt := none, finishedAt := none, assignedTo := "", err := none,
    retries := 0, maxRetries := 3, timeout := 300, dependencies := [] }

/-- Low-priority task queued first. -/
def taskLow : Task := mkTask "t-low" 1 0

/-- Strictly higher-priority task queued second. -/
def taskHigh : Task := mkTask "t-high" 5 1

/-- A task manager holding both tasks, low-priority first in the queue. -/
def tmC1 : TaskManager :=
  { tasks := [("t-low", taskLow), ("t-high", taskHigh)],
    taskQueue := [taskLow, taskHigh] }

/-- A completed (terminal) task. -/
def taskDone : Task :=
  { mkTask "t1" 1 0 with status := TaskStatus.complete, finishedAt := some 10 }

/-- A task manager holding only the completed task. -/
def tmC2 : TaskManager := { tasks := [("t1", taskDone)], taskQueue := [] }

/-- An orchestrator whose metrics sit between the code's memory threshold
(80) and the spec's (85), with the cooldown elapsed. -/
def orchC3 : Orchestrator :=
  { instances := [], lastScaleTime := 0,
    metrics := { cpuUsage := 0, memoryUsage := 82, taskCount := 0, errorRate := 0 } }

/-- A registered analysis agent. -/
def agentAnalysis : AgentStruct :=
  { id := "ag-analysis-1", name := "Analysis Agent", role := "Analista",
    goal := "Analisar", allowDelegation := false, model := "gpt-4o-mini",
    backstory := "b" }

/-- A registered research agent. -/
def agentResearch : AgentStruct :=
  { id := "ag-research-1", name := "Research Agent", role := "Pesquisador",
    goal := "Pesquisar", allowDelegation := false, model := "gpt-4o-mini",
    backstory := "b" }

/-- Per-instance metrics far over the CPU threshold, so the type average
stays hot even after a zero-metrics clone joins. -/
def hotAgentMetrics : AgentMetrics :=
  { agentName := "Analysis Agent", cpu := 200, memory := 0, tasksInQueue := 0,
    responseTime := 0, errorRate := 0, lastUpdated := 0 }

/-- An orchestrator with one hot type and one cold type, over-threshold
system metrics (the §8 scenario values) and an expired cooldown. -/
def orchC4 : Orchestrator :=
  { instances :=
      [("Analysis Agent", [{ agent := agentAnalysis, lastScaled := 0,
                             metrics := hotAgentMetrics }]),
       ("Research Agent", [{ agent := agentResearch, lastScaled := 0,
                             metrics := initMetrics "Research Agent" }])],
    lastScaleTime := 0,
    metrics := { cpuUsage := 90, memoryUsage := 90, taskCount := 200,
                 errorRate := 1 / 10 } }

/-- The state reached from `orchC4` by a `ScaleSystem` call at instant 1000:
one clone appended for the hot analysis type, the cold research type
untouched, cooldown restarted. -/
def orchC4b : Orchestrator :=
  { instances :=
      [("Analysis Agent",
        [{ agent := agentAnalysis, lastScaled := 0, metrics := hotAgentMetrics },
         { agent := agentAnalysis.clone, lastScaled := 1000,
           metrics := initMetrics agentAnalysis.clone.name }]),
       ("Research Agent",
        [{ agent := agentResearch, lastScaled := 0,
           metrics := initMetrics "Research Agent" }])],
    lastScaleTime := 1000, metrics := orchC4.metrics }

/-- A research-type worker. -/
def workerC5 : LLMAgent := { id := "agent-1", type := "research" }

/-- An analysis-type subtask, mismatching the research worker. -/
def subtaskC5 : SubTask :=
  { id := "T1-1", parentID := "T1", name := "Analise", description := "d",
    type := "analysis", parameters := [("priority", "high")], status := "pending" }

/-- A decodable task request. -/
def reqC6 : TaskRequest :=
  { id := "T1", description := "analyze", parameters := [("p", "high")] }

/-- The first subtask of the breakdown of `reqC6` at instant 0. -/
def subC6 : SubTask :=
  { id := "T1-1", parentID := "T1", name := "Analise de Requisitos",
    description := "Analisar os requisitos e contexto da tarefa",
    type := "analysis",
    parameters := [("priority", "high"), ("deadline", toString (3600 : Nat))],
    status := "pending" }

/-- Empty hybrid memory state. -/
def emptyHybrid : HybridState :=
  { shortTerm := { kv := [], sets := [] }, longTerm := [], semantic := [] }

/-- All backing stores available. -/
def envOk : StoreEnv := { semanticOk := true, shortOk := true, longOk := true }

/-- Long-term store down, the others available. -/
def envLongDown : StoreEnv := { semanticOk := true, shortOk := true, longOk := false }

/-- An important memory (importance 0.9 ≥ 0.7). -/
def memC7 : Memory :=
  { id := "m7", agentID := "a7", content := "c", type := MemoryType.longTerm,
    importance := 9 / 10, timestamp := 0, ttl := 0, tags := ["t"] }

/-- A memory carrying only the tag `x`. -/
def memC8 : Memory :=
  { id := "m1", agentID := "a", content := "c", type := MemoryType.longTerm,
    importance := 9 / 10, timestamp := 0, ttl := 0, tags := ["x"] }

/-- A Redis state with `memC8` stored under agent `a` and indexed under tag
`x`, unexpired at instant 5. -/
def redisC8 : RedisState :=
  { kv := [{ key := memoryKey "a" "m1", value := memC8, expireAt := 10 }],
    sets := [(tagKey "a" "x", ["m1"])] }

/-- The orchestrator infrastructure agent struct (part_002 constructor). -/
def agentC9 : AgentStruct :=
  { id := "orch-1", name := "Orchestrator Infrastructure Agent",
    role := "Gerenciador de Infraestrutura",
    goal := "Gerenciar a escalabilidade dinamica dos agentes cognitivos",
    allowDelegation := false, model := "gpt-4-mini",
    backstory := "Um especialista em infraestrutura" }

/-! ## Helper lemmas -/

theorem extractFirst_spec (p : Task → Bool) (l₁ : List Task) (t : Task)
    (l₂ : List Task) (h₁ : ∀ u ∈ l₁, p u = false) (h₂ : p t = true) :
    extractFirst p (l₁ ++ t :: l₂) = some (t, l₁ ++ l₂) := by
  induction l₁ with
  | nil => simp [extractFirst, h₂]
  | cons a rest ih =>
    have ha : p a = false := h₁ a (by simp)
    have ih' := ih (fun u hu => h₁ u (by simp [hu]))
    simp [extractFirst, ha, ih']

theorem lookupTask_setTaskInMap (tasks : List (String × Task)) (taskID : String)
    (t t' : Task) (h : lookupTask tasks taskID = some t) :
    lookupTask (setTaskInMap tasks taskID t') taskID = some t' := by
  induction tasks with
  | nil => simp [lookupTask] at h
  | cons kv rest ih =>
    by_cases hk : kv.1 = taskID
    · simp [lookupTask, setTaskInMap, hk]
    · have h' : lookupTask rest taskID = some t := by
        simpa [lookupTask, hk] using h
      simpa [lookupTask, setTaskInMap, hk] using ih h'

/-! ## Claim C1 — GetNextTask selection order -/

/-- C1, counterexample: with the low-priority task queued first,
`GetNextTask` returns it even though the strictly higher-priority task
`taskHigh` is queued, pending and assignable — refuting the claim that a
highest-priority assignable pending task is returned. -/
theorem c1_getNextTask_ignores_priority :
    (getNextTask tmC1 "agent1").1 = some { taskLow with assignedTo := "agent1" }
    ∧ taskHigh ∈ tmC1.taskQueue
    ∧ assignable "agent1" taskHigh = true
    ∧ taskHigh.status = TaskStatus.pending
    ∧ taskLow.priority < taskHigh.priority := by
  decide

/-- C1, amended: `GetNextTask(agent_id)` returns the first task in queue
(insertion) order whose `assigned_to` is empty or equals the agent —
irrespective of priority, `created_at` and status — assigning it and
removing it from the queue. -/
theorem c1_getNextTask_first_assignable :
    ∀ (tm : TaskManager) (agentID : String) (l₁ : List Task) (t : Task)
      (l₂ : List Task),
      tm.taskQueue = l₁ ++ t :: l₂ →
      (∀ u ∈ l₁, assignable agentID u = false) →
      assignable agentID t = true →
      (getNextTask tm agentID).1 = some { t with assignedTo := agentID }
      ∧ (getNextTask tm agentID).2.taskQueue = l₁ ++ l₂ := by
  intro tm agentID l₁ t l₂ hq h₁ h₂
  unfold getNextTask
  rw [hq, extractFirst_spec (assignable agentID) l₁ t l₂ h₁ h₂]
  exact ⟨rfl, rfl⟩

/-- C1, witness for the amended theorem at the concrete two-task manager. -/
theorem c1_getNextTask_first_assignable_witness :
    (getNextTask tmC1 "agent1").1 = some { taskLow with assignedTo := "agent1" }
    ∧ (getNextTask tmC1 "agent1").2.taskQueue = [taskHigh] :=
  c1_getNextTask_first_assignable tmC1 "agent1" [] taskLow [taskHigh]
    rfl (by simp) (by decide)

/-! ## Claim C2 — status update discipline -/

/-- C2, counterexample: `UpdateTaskStatus` moves a complete (terminal) task
back to running — a transition outside the DAG takes effect, the terminal
status is not stable, and `started_at` remains unset by the update. -/
theorem c2_terminal_status_mutates :
    lookupTask tmC2.tasks "t1" = some taskDone
    ∧ taskDone.status = TaskStatus.complete
    ∧ lookupTask (updateTaskStatus tmC2 "t1" TaskStatus.running).tasks "t1"
        = some { taskDone with status := TaskStatus.running }
    ∧ ({ taskDone with status := TaskStatus.running } : Task).startedAt = none := by
  decide

/-- C2, amended: `UpdateTaskStatus(id, status)` overwrites the status of an
existing task unconditionally — no transition-DAG check, so a terminal
status can change — and touches no timestamps; an unknown id is a no-op.
The timestamps are written only by the `Task` helpers, which themselves set
status and stamp unconditionally (`Start` overwrites `started_at` even when
already set). -/
theorem c2_updateStatus_unconditional :
    (∀ (tm : TaskManager) (taskID : String) (status : TaskStatus) (t : Task),
        lookupTask tm.tasks taskID = some t →
        lookupTask (updateTaskStatus tm taskID status).tasks taskID
          = some { t with status := status })
    ∧ (∀ (tm : TaskManager) (taskID : String) (status : TaskStatus),
        lookupTask tm.tasks taskID = none → updateTaskStatus tm taskID status = tm)
    ∧ (∀ (t : Task) (now : Nat),
        Task.start now t = { t with status := TaskStatus.running, startedAt := some now })
    ∧ (∀ (t : Task) (now : Nat),
        Task.complete now t = { t with status := TaskStatus.complete, finishedAt := some now })
    ∧ (∀ (t : Task) (now : Nat) (e : String),
        Task.fail now e t
          = { t with status := TaskStatus.failed, finishedAt := some now, err := some e })
    ∧ (∀ (t : Task) (now : Nat),
        Task.cancel now t = { t with status := TaskStatus.cancelled, finishedAt := some now }) := by
  refine ⟨?_, ?_, fun t now => rfl, fun t now => rfl, fun t now e => rfl, fun t now => rfl⟩
  · intro tm taskID status t h
    unfold updateTaskStatus
    rw [h]
    exact lookupTask_setTaskInMap tm.tasks taskID t _ h
  · intro tm taskID status h
    unfold updateTaskStatus
    rw [h]

/-- C2, witness for the amended theorem: the complete task of `tmC2` is
overwritten to running. -/
theorem c2_updateStatus_unconditional_witness :
    lookupTask (updateTaskStatus tmC2 "t1" TaskStatus.running).tasks "t1"
      = some { taskDone with status := TaskStatus.running } :=
  c2_updateStatus_unconditional.1 tmC2 "t1" TaskStatus.running taskDone (by decide)

/-! ## Claim C3 — CheckScaling characterization -/

/-- C3, counterexample: with memory usage 82 the code scales (82 > its
threshold 80) although the claimed condition (memory ≥ 85, error ≥ 0.05,
cpu ≥ 80, tasks ≥ 100) is false — the claimed iff fails at this input. -/
theorem c3_checkScaling_claim_fails :
    (checkScaling 300 orchC3).1 = true
    ∧ ¬ specScalingCondition orchC3.lastScaleTime 300 orchC3.metrics := by
  constructor
  · norm_num [checkScaling, orchC3, overThreshold, cooldownPeriod, cpuThreshold,
      memoryThreshold, tasksThreshold, errorThreshold]
  · norm_num [specScalingCondition, orchC3, cooldownPeriod]

/-- C3, amended: `CheckScaling` returns true iff the cooldown (300 s) has
elapsed and at least one of cpu > 80, memory > 80, tasks > 100,
error_rate > 5 holds (code thresholds, strict comparisons); on returning
true it also stamps `last_scale_at := now`. -/
theorem c3_checkScaling_characterization :
    ∀ (now : ℚ) (o : Orchestrator),
      ((checkScaling now o).1 = true ↔
        (o.lastScaleTime + cooldownPeriod ≤ now ∧
          (cpuThreshold < o.metrics.cpuUsage ∨
            memoryThreshold < o.metrics.memoryUsage ∨
            tasksThreshold < o.metrics.taskCount ∨
            errorThreshold < o.metrics.errorRate)))
      ∧ ((checkScaling now o).2 =
          if (checkScaling now o).1 = true then { o with lastScaleTime := now } else o) := by
  intro now o
  unfold checkScaling
  by_cases h1 : now - o.lastScaleTime < cooldownPeriod
  · rw [if_pos h1]
    refine ⟨⟨(fun h => nomatch h), ?_⟩, by simp⟩
    rintro ⟨ha, -⟩
    exact absurd h1 (by linarith)
  · rw [if_neg h1]
    by_cases h2 : overThreshold o.metrics
    · rw [if_pos h2]
      refine ⟨⟨fun _ => ⟨?_, h2⟩, fun _ => rfl⟩, by simp⟩
      linarith [not_lt.mp h1]
    · rw [if_neg h2]
      refine ⟨⟨(fun h => nomatch h), ?_⟩, by simp⟩
      rintro ⟨-, hd⟩
      exact absurd hd h2

/-! ## Claim C9 — Clone identity -/

/-- C9, counterexample: the clone of a concrete agent keeps its id — the
claim that the clone's id differs from the original's is false. -/
theorem c9_clone_keeps_id :
    agentC9.clone.id = agentC9.id ∧ agentC9.id = "orch-1" :=
  ⟨rfl, rfl⟩

/-- C9, amended: `Clone()` returns a new `AgentStruct` value that is
field-for-field equal to the receiver — including `ID`: no fresh identity is
generated; name, role, goal, backstory and the tunables are all copied. -/
theorem c9_clone_copies_all_fields : ∀ a : AgentStruct, a.clone = a := by
  intro a
  cases a
  rfl

/-! ## Claim C5 — worker type routing -/

/-- C5: a worker that decodes a subtask of a foreign type nacks the
delivery with requeue, does not process it, publishes nothing and never
acks — for every worker, subtask, publish outcome and instant. -/
theorem c5_worker_type_routing :
    ∀ (a : LLMAgent) (task : SubTask) (publishOk : Bool) (now : Nat),
      task.type ≠ a.type →
      handleTaskDelivery a (some task) publishOk now
        = { action := DeliveryAction.nack true, published := none, processed := false } := by
  intro a task publishOk now h
  simp [handleTaskDelivery, h]

/-- C5, witness: the research worker nacks the analysis subtask. -/
theorem c5_worker_type_routing_witness :
    handleTaskDelivery workerC5 (some subtaskC5) true 0
      = { action := DeliveryAction.nack true, published := none, processed := false } :=
  c5_worker_type_routing workerC5 subtaskC5 true 0 (by decide)

/-! ## Claim C6 — decomposer ack discipline -/

/-- C6, counterexample: when every subtask publish fails, the router still
acks the parent delivery (and nothing reached the tasks queue) — refuting
the claim that the parent is nacked with requeue on a publish error and
acked only after all subtasks are persisted. -/
theorem c6_router_acks_despite_publish_failure :
    (handleInputDelivery (some reqC6) (fun _ => false) 0).action = DeliveryAction.ack
    ∧ (handleInputDelivery (some reqC6) (fun _ => false) 0).published = [] := by
  constructor
  · rfl
  · rfl

/-- C6, amended: the parent delivery is acked whenever it decodes,
regardless of subtask publish failures (a failed publish is logged and the
subtask skipped; broker persistence is never awaited); a nack with requeue
happens only on decode failure; whatever is published comes from the
breakdown of the request. -/
theorem c6_router_ack_discipline :
    (∀ (req : TaskRequest) (pubOk : Nat → Bool) (now : Nat),
        (handleInputDelivery (some req) pubOk now).action = DeliveryAction.ack)
    ∧ (∀ (pubOk : Nat → Bool) (now : Nat),
        (handleInputDelivery none pubOk now).action = DeliveryAction.nack true)
    ∧ (∀ (req : TaskRequest) (pubOk : Nat → Bool) (now : Nat) (s : SubTask),
        s ∈ (handleInputDelivery (some req) pubOk now).published →
        s ∈ mockLLMBreakdown now req) := by
  refine ⟨fun req pubOk now => rfl, fun pubOk now => rfl, ?_⟩
  intro req pubOk now s hs
  simp only [handleInputDelivery] at hs
  revert hs
  generalize mockLLMBreakdown now req = l
  have : ∀ (l : List SubTask) (i : Nat), s ∈ publishEach pubOk l i → s ∈ l := by
    intro l
    induction l with
    | nil => intro i h; simp [publishEach] at h
    | cons a rest ih =>
      intro i h
      by_cases hp : pubOk i
      · simp only [publishEach, if_pos hp, List.mem_cons] at h
        rcases h with h | h
        · simp [h]
        · exact List.mem_cons_of_mem a (ih (i + 1) h)
      · simp only [publishEach, if_neg hp] at h
        exact List.mem_cons_of_mem a (ih (i + 1) h)
  exact this l 0

/-- C6, witness: the analysis subtask is published when publishing succeeds
and indeed belongs to the breakdown. -/
theorem c6_router_ack_discipline_witness :
    subC6 ∈ mockLLMBreakdown 0 reqC6 :=
  c6_router_ack_discipline.2.2 reqC6 (fun _ => true) 0 subC6 (by decide)

/-! ## Claim C4 — scaling cooldown (helper lemmas, then the claim) -/

theorem checkScaling_snd_of_false (now : ℚ) (o : Orchestrator)
    (h : (checkScaling now o).1 = false) : (checkScaling now o).2 = o := by
  unfold checkScaling at h ⊢
  by_cases h1 : now - o.lastScaleTime < cooldownPeriod
  · rw [if_pos h1]
  · rw [if_neg h1] at h ⊢
    by_cases h2 : overThreshold o.metrics
    · rw [if_pos h2] at h
      cases h
    · rw [if_neg h2]

theorem checkScaling_true_facts (now : ℚ) (o : Orchestrator)
    (h : (checkScaling now o).1 = true) :
    o.lastScaleTime + cooldownPeriod ≤ now
    ∧ (checkScaling now o).2.lastScaleTime = now := by
  unfold checkScaling at h ⊢
  by_cases h1 : now - o.lastScaleTime < cooldownPeriod
  · rw [if_pos h1] at h
    cases h
  · rw [if_neg h1] at h ⊢
    by_cases h2 : overThreshold o.metrics
    · rw [if_pos h2]
      exact ⟨by linarith [not_lt.mp h1], rfl⟩
    · rw [if_neg h2] at h
      cases h

theorem scaleSystem_of_check_false (now : ℚ) (o : Orchestrator)
    (h : (checkScaling now o).1 = false) : scaleSystem now o = o := by
  unfold scaleSystem
  rw [h]
  simpa using checkScaling_snd_of_false now o h

theorem scaleSystem_lastScale_of_true (now : ℚ) (o : Orchestrator)
    (h : (checkScaling now o).1 = true) : (scaleSystem now o).lastScaleTime = now := by
  unfold scaleSystem
  rw [h]
  simpa using (checkScaling_true_facts now o h).2

theorem growth_check_true (now : ℚ) (o : Orchestrator) (ty : String)
    (h : typeCount o ty < typeCount (scaleSystem now o) ty) :
    (checkScaling now o).1 = true := by
  cases hcs : (checkScaling now o).1 with
  | true => rfl
  | false =>
    rw [scaleSystem_of_check_false now o hcs] at h
    exact absurd h (lt_irrefl _)

theorem runSteps_append (o : Orchestrator) (l₁ l₂ : List OrchStep) :
    runSteps o (l₁ ++ l₂) = runSteps (runSteps o l₁) l₂ := by
  induction l₁ generalizing o with
  | nil => rfl
  | cons s rest ih => simp [runSteps, ih]

theorem scaleTimes_cons (s : OrchStep) (rest : List OrchStep) :
    scaleTimes (s :: rest) = scaleTimes [s] ++ scaleTimes rest := by
  cases s <;> simp [scaleTimes]

theorem applyStep_lastScale (o : Orchestrator) (s : OrchStep) (c : ℚ)
    (h : c ≤ o.lastScaleTime) (hs : ∀ t ∈ scaleTimes [s], c ≤ t) :
    c ≤ (applyStep o s).lastScaleTime := by
  cases s with
  | pushMetrics m => simpa [applyStep, updateSystemMetrics] using h
  | registerAgent a t =>
    have hr : (registerAgentAt t a o).lastScaleTime = o.lastScaleTime := by
      unfold registerAgentAt
      split <;> rfl
    simpa [applyStep, hr] using h
  | scale t =>
    have ht : c ≤ t := hs t (by simp [scaleTimes])
    show c ≤ (scaleSystem t o).lastScaleTime
    cases hcs : (checkScaling t o).1 with
    | false =>
      rw [scaleSystem_of_check_false t o hcs]
      exact h
    | true =>
      rw [scaleSystem_lastScale_of_true t o hcs]
      exact ht

theorem runSteps_lastScale (steps : List OrchStep) :
    ∀ (o : Orchestrator) (c : ℚ), c ≤ o.lastScaleTime →
      (∀ t ∈ scaleTimes steps, c ≤ t) → c ≤ (runSteps o steps).lastScaleTime := by
  induction steps with
  | nil =>
    intro o c h _
    simpa [runSteps] using h
  | cons s rest ih =>
    intro o c h hs
    rw [scaleTimes_cons] at hs
    have h1 : c ≤ (applyStep o s).lastScaleTime :=
      applyStep_lastScale o s c h (fun t ht => hs t (List.mem_append_left _ ht))
    exact ih (applyStep o s) c h1 (fun t ht => hs t (List.mem_append_right _ ht))

theorem checkScaling_snd_instances (now : ℚ) (o : Orchestrator) :
    (checkScaling now o).2.instances = o.instances := by
  unfold checkScaling
  split
  · rfl
  · split <;> rfl

theorem typeCount_head_grows (now : ℚ) (o : Orchestrator) (ty : String)
    (insts : List AgentInstance) (rest : List (String × List AgentInstance))
    (hi : o.instances = (ty, insts) :: rest)
    (hc : (checkScaling now o).1 = true)
    (hh : hotInstances insts) (hne : insts ≠ []) :
    typeCount o ty < typeCount (scaleSystem now o) ty := by
  have hlen : insts.length < (scaleType now insts).length := by
    unfold scaleType
    rw [if_pos hh]
    cases insts with
    | nil => exact absurd rfl hne
    | cons b bs => simp
  have hcount1 : typeCount o ty = insts.length := by
    unfold typeCount
    rw [hi]
    simp [List.find?]
  have hcount2 : typeCount (scaleSystem now o) ty = (scaleType now insts).length := by
    unfold scaleSystem
    rw [hc, if_pos rfl]
    unfold typeCount
    rw [checkScaling_snd_instances, hi]
    simp [List.find?]
  rw [hcount1, hcount2]
  exact hlen

theorem orchC4_cooldown_ok : ¬ ((1000 : ℚ) - orchC4.lastScaleTime < cooldownPeriod) := by
  norm_num [orchC4, cooldownPeriod]

theorem orchC4_over : overThreshold orchC4.metrics := by
  norm_num [orchC4, overThreshold, cpuThreshold, memoryThreshold, tasksThreshold,
    errorThreshold]

theorem checkScaling_1000_orchC4 : (checkScaling 1000 orchC4).1 = true := by
  unfold checkScaling
  rw [if_neg orchC4_cooldown_ok, if_pos orchC4_over]

theorem checkScaling_1000_orchC4_snd :
    (checkScaling 1000 orchC4).2 = { orchC4 with lastScaleTime := 1000 } := by
  unfold checkScaling
  rw [if_neg orchC4_cooldown_ok, if_pos orchC4_over]

theorem hotInstances_analysis :
    hotInstances [{ agent := agentAnalysis, lastScaled := 0, metrics := hotAgentMetrics }] := by
  norm_num [hotInstances, hotAgentMetrics, cpuThreshold, memoryThreshold,
    tasksThreshold, errorThreshold]

theorem coldInstances_research :
    ¬ hotInstances
        [{ agent := agentResearch, lastScaled := 0, metrics := initMetrics "Research Agent" }] := by
  norm_num [hotInstances, initMetrics, cpuThreshold, memoryThreshold,
    tasksThreshold, errorThreshold]

theorem scaleType_analysis :
    scaleType 1000 [{ agent := agentAnalysis, lastScaled := 0, metrics := hotAgentMetrics }]
      = [{ agent := agentAnalysis, lastScaled := 0, metrics := hotAgentMetrics },
         { agent := agentAnalysis.clone, lastScaled := 1000,
           metrics := initMetrics agentAnalysis.clone.name }] := by
  unfold scaleType
  rw [if_pos hotInstances_analysis]
  rfl

theorem scaleType_research :
    scaleType 1000
        [{ agent := agentResearch, lastScaled := 0, metrics := initMetrics "Research Agent" }]
      = [{ agent := agentResearch, lastScaled := 0, metrics := initMetrics "Research Agent" }] := by
  unfold scaleType
  rw [if_neg coldInstances_research]

theorem scaleSystem_1000_orchC4 : scaleSystem 1000 orchC4 = orchC4b := by
  unfold scaleSystem
  rw [checkScaling_1000_orchC4, if_pos rfl, checkScaling_1000_orchC4_snd]
  show ({ instances := _, lastScaleTime := 1000, metrics := orchC4.metrics } : Orchestrator) = _
  unfold orchC4b
  rw [Orchestrator.mk.injEq]
  refine ⟨?_, rfl, rfl⟩
  show (orchC4.instances.map (fun kv => (kv.1, scaleType 1000 kv.2))) = _
  rw [show orchC4.instances
      = [("Analysis Agent",
          [{ agent := agentAnalysis, lastScaled := 0, metrics := hotAgentMetrics }]),
         ("Research Agent",
          [{ agent := agentResearch, lastScaled := 0,
             metrics := initMetrics "Research Agent" }])] from rfl]
  rw [List.map_cons, List.map_cons, List.map_nil]
  rw [scaleType_analysis, scaleType_research]

theorem orchC4b_cooldown_ok : ¬ ((1400 : ℚ) - orchC4b.lastScaleTime < cooldownPeriod) := by
  norm_num [orchC4b, cooldownPeriod]

theorem orchC4b_over : overThreshold orchC4b.metrics := by
  norm_num [orchC4b, orchC4, overThreshold, cpuThreshold, memoryThreshold,
    tasksThreshold, errorThreshold]

theorem checkScaling_1400_orchC4b : (checkScaling 1400 orchC4b).1 = true := by
  unfold checkScaling
  rw [if_neg orchC4b_cooldown_ok, if_pos orchC4b_over]

theorem hotInstances_analysisPair :
    hotInstances
      [{ agent := agentAnalysis, lastScaled := 0, metrics := hotAgentMetrics },
       { agent := agentAnalysis.clone, lastScaled := 1000,
         metrics := initMetrics agentAnalysis.clone.name }] := by
  norm_num [hotInstances, hotAgentMetrics, initMetrics, cpuThreshold, memoryThreshold,
    tasksThreshold, errorThreshold]

theorem c4_growth1 :
    typeCount orchC4 "Analysis Agent" < typeCount (scaleSystem 1000 orchC4) "Analysis Agent" :=
  typeCount_head_grows 1000 orchC4 "Analysis Agent"
    [{ agent := agentAnalysis, lastScaled := 0, metrics := hotAgentMetrics }]
    [("Research Agent",
      [{ agent := agentResearch, lastScaled := 0, metrics := initMetrics "Research Agent" }])]
    rfl checkScaling_1000_orchC4 hotInstances_analysis (by simp)

theorem c4_growth2 :
    typeCount (scaleSystem 1000 orchC4) "Analysis Agent"
      < typeCount (scaleSystem 1400 (scaleSystem 1000 orchC4)) "Analysis Agent" := by
  rw [scaleSystem_1000_orchC4]
  exact typeCount_head_grows 1400 orchC4b "Analysis Agent"
    [{ agent := agentAnalysis, lastScaled := 0, metrics := hotAgentMetrics },
     { agent := agentAnalysis.clone, lastScaled := 1000,
       metrics := initMetrics agentAnalysis.clone.name }]
    [("Research Agent",
      [{ agent := agentResearch, lastScaled := 0, metrics := initMetrics "Research Agent" }])]
    rfl checkScaling_1400_orchC4b hotInstances_analysisPair (by simp)

theorem scaleSystem_backtoback :
    scaleSystem (2001 / 2) (scaleSystem 1000 orchC4) = scaleSystem 1000 orchC4 := by
  apply scaleSystem_of_check_false
  have hcond : (2001 / 2 : ℚ) - (scaleSystem 1000 orchC4).lastScaleTime < cooldownPeriod := by
    rw [scaleSystem_1000_orchC4]
    norm_num [orchC4b, cooldownPeriod]
  unfold checkScaling
  rw [if_pos hcond]

/-- C4: (1) in every step trace whose intermediate `ScaleSystem` instants
are not earlier than the first event, two clone-producing `ScaleSystem`
calls (`typeCount` grows for some type) are at least `cooldownPeriod`
apart; (2) concretely, under the §8 over-threshold metrics, a call at 1000
clones exactly once for the hot type and not at all for the cold type, and
a second call half a second later changes nothing. -/
theorem c4_scaling_cooldown :
    (∀ (o : Orchestrator) (pre mid : List OrchStep) (t₁ t₂ : ℚ) (ty₁ ty₂ : String),
        typeCount (runSteps o pre) ty₁
            < typeCount (scaleSystem t₁ (runSteps o pre)) ty₁ →
        typeCount (runSteps o (pre ++ OrchStep.scale t₁ :: mid)) ty₂
            < typeCount (scaleSystem t₂ (runSteps o (pre ++ OrchStep.scale t₁ :: mid))) ty₂ →
        (∀ t ∈ scaleTimes mid, t₁ ≤ t) →
        t₁ + cooldownPeriod ≤ t₂)
    ∧ (typeCount (scaleSystem 1000 orchC4) "Analysis Agent" = 2
        ∧ typeCount (scaleSystem 1000 orchC4) "Research Agent" = 1
        ∧ scaleSystem (2001 / 2) (scaleSystem 1000 orchC4) = scaleSystem 1000 orchC4) := by
  constructor
  · intro o pre mid t₁ t₂ ty₁ ty₂ h₁ h₂ hmono
    have hc₁ : (checkScaling t₁ (runSteps o pre)).1 = true :=
      growth_check_true _ _ _ h₁
    have hl₁ : (scaleSystem t₁ (runSteps o pre)).lastScaleTime = t₁ :=
      scaleSystem_lastScale_of_true _ _ hc₁
    have hrun : runSteps o (pre ++ OrchStep.scale t₁ :: mid)
        = runSteps (scaleSystem t₁ (runSteps o pre)) mid := by
      rw [runSteps_append]
      rfl
    have hge : t₁ ≤ (runSteps o (pre ++ OrchStep.scale t₁ :: mid)).lastScaleTime := by
      rw [hrun]
      exact runSteps_lastScale mid _ t₁ (le_of_eq hl₁.symm) hmono
    have hc₂ :
        (checkScaling t₂ (runSteps o (pre ++ OrchStep.scale t₁ :: mid))).1 = true :=
      growth_check_true _ _ _ h₂
    have hfacts := (checkScaling_true_facts _ _ hc₂).1
    linarith
  · refine ⟨?_, ?_, scaleSystem_backtoback⟩
    · rw [scaleSystem_1000_orchC4]
      rfl
    · rw [scaleSystem_1000_orchC4]
      rfl

/-- C4, witness: the two clone-producing calls of the concrete trace are a
full cooldown apart. -/
theorem c4_scaling_cooldown_witness : (1000 : ℚ) + cooldownPeriod ≤ 1400 :=
  c4_scaling_cooldown.1 orchC4 [] [] 1000 1400 "Analysis Agent" "Analysis Agent"
    c4_growth1 c4_growth2 (fun t ht => absurd ht (by simp [scaleTimes]))

/-! ## Claims C7 and C10 — hybrid memory placement (helper lemmas first) -/

theorem kvFind_replace (key : String) (v : Memory) (exp : Nat) :
    ∀ l : List RedisEntry, l.any (fun x => x.key = key) = true →
      kvFind (l.map (fun x =>
          if x.key = key then { key := key, value := v, expireAt := exp } else x)) key
        = some { key := key, value := v, expireAt := exp } := by
  intro l
  induction l with
  | nil => intro h; simp at h
  | cons a t ih =>
    intro h
    by_cases hk : a.key = key
    · simp [kvFind, hk]
    · have ht : t.any (fun x => x.key = key) = true := by
        simpa [List.any_cons, hk] using h
      simpa [kvFind, hk] using ih ht

theorem kvFind_append (key : String) (v : Memory) (exp : Nat) :
    ∀ l : List RedisEntry, l.any (fun x => x.key = key) = false →
      kvFind (l ++ [{ key := key, value := v, expireAt := exp }]) key
        = some { key := key, value := v, expireAt := exp } := by
  intro l
  induction l with
  | nil => intro _; simp [kvFind]
  | cons a t ih =>
    intro h
    have hk : ¬ (a.key = key) := by
      intro hk
      simp [List.any_cons, hk] at h
    have ht : t.any (fun x => x.key = key) = false := by
      simpa [List.any_cons, hk] using h
    simpa [kvFind, hk] using ih ht

theorem kvFind_kvSet (kv : List RedisEntry) (key : String) (v : Memory) (exp : Nat) :
    kvFind (kvSet kv key v exp) key = some { key := key, value := v, expireAt := exp } := by
  unfold kvSet
  by_cases h : kv.any (fun x => x.key = key) = true
  · rw [if_pos h]
    exact kvFind_replace key v exp kv h
  · rw [if_neg h]
    exact kvFind_append key v exp kv (by simpa using h)

theorem sAdd_kv (st : RedisState) (key member : String) : (sAdd st key member).kv = st.kv := by
  unfold sAdd
  split <;> rfl

theorem foldl_sAdd_kv (agentID memberID : String) (tags : List String) :
    ∀ st : RedisState,
      (tags.foldl (fun s tag => sAdd s (tagKey agentID tag) memberID) st).kv = st.kv := by
  induction tags with
  | nil => intro st; rfl
  | cons a t ih =>
    intro st
    rw [List.foldl_cons, ih, sAdd_kv]

theorem redisGet_after_store (now : Nat) (st : RedisState) (m : Memory) :
    redisGetMemory now (redisStoreMemory now st m) m.agentID m.id = some m := by
  unfold redisStoreMemory redisGetMemory
  rw [foldl_sAdd_kv, sAdd_kv]
  show (match kvFind (kvSet st.kv (memoryKey m.agentID m.id) m
      (now + (if m.ttl = 0 then 86400 else m.ttl))) (memoryKey m.agentID m.id) with
    | some e => if now < e.expireAt then some e.value else none
    | none => none) = some m
  rw [kvFind_kvSet]
  have hlt : now < now + (if m.ttl = 0 then 86400 else m.ttl) := by
    by_cases h0 : m.ttl = 0
    · simp [h0]
    · simp [h0]
      omega
  simp [hlt]

theorem mongoStore_ok_eq (now : Nat) (st : MongoState) (m : Memory) (docs : MongoState)
    (h : mongoStoreMemory now st m = Except.ok docs) :
    docs = st ++ [{ m with timestamp := now }] := by
  unfold mongoStoreMemory at h
  by_cases hd : st.any (fun d => d.id = m.id) = true
  · rw [if_pos hd] at h
    cases h
  · rw [if_neg hd] at h
    injection h with h
    exact h.symm

/-- C7: a successful `HybridMemoryManager.StoreMemory` leaves the memory
mirrored in the semantic tier, placed in the long-term tier iff
`importance ≥ ImportanceThreshold` (default 0.7), otherwise stored — and
readable back — in the short-term tier, with the other placement tier
untouched. -/
theorem c7_store_placement :
    ∀ (cfg : MemoryConfig) (env : StoreEnv) (now : Nat) (st : HybridState) (m : Memory)
      (st' : HybridState),
      hybridStoreMemory cfg env now st m = (st', none) →
      (toObject m ∈ st'.semantic
       ∧ (cfg.importanceThreshold ≤ m.importance →
            st'.longTerm = st.longTerm ++ [{ m with timestamp := now }]
            ∧ st'.shortTerm = st.shortTerm)
       ∧ (m.importance < cfg.importanceThreshold →
            st'.shortTerm = redisStoreMemory now st.shortTerm m
            ∧ redisGetMemory now st'.shortTerm m.agentID m.id = some m
            ∧ st'.longTerm = st.longTerm)
       ∧ defaultMemoryConfig.importanceThreshold = 7 / 10) := by
  intro cfg env now st m st' h
  unfold hybridStoreMemory at h
  by_cases hsem : env.semanticOk = false
  · rw [if_pos hsem] at h
    simp [Prod.ext_iff] at h
  · rw [if_neg hsem] at h
    by_cases himp : cfg.importanceThreshold ≤ m.importance
    · rw [if_pos himp] at h
      by_cases hlong : env.longOk = false
      · rw [if_pos hlong] at h
        simp [Prod.ext_iff] at h
      · rw [if_neg hlong] at h
        cases hm : mongoStoreMemory now st.longTerm m with
        | error e =>
          rw [hm] at h
          simp [Prod.ext_iff] at h
        | ok docs =>
          rw [hm] at h
          have hdocs := mongoStore_ok_eq now st.longTerm m docs hm
          have hst : st'
              = { shortTerm := st.shortTerm, longTerm := docs,
                  semantic := st.semantic ++ [toObject m] } := by
            have h1 := congrArg Prod.fst h
            exact h1.symm
          subst hst
          refine ⟨by simp, fun _ => ⟨hdocs, rfl⟩, fun hlt => absurd himp (not_le.mpr hlt), rfl⟩
    · rw [if_neg himp] at h
      by_cases hshort : env.shortOk = false
      · rw [if_pos hshort] at h
        simp [Prod.ext_iff] at h
      · rw [if_neg hshort] at h
        have hst : st'
            = { shortTerm := redisStoreMemory now st.shortTerm m, longTerm := st.longTerm,
                semantic := st.semantic ++ [toObject m] } := by
          have h1 := congrArg Prod.fst h
          exact h1.symm
        subst hst
        refine ⟨by simp, fun hge => absurd hge himp, fun _ => ⟨rfl, ?_, rfl⟩, rfl⟩
        exact redisGet_after_store now st.shortTerm m

theorem hybridStore_memC7_eval :
    hybridStoreMemory defaultMemoryConfig envOk 5 emptyHybrid memC7
      = ({ shortTerm := emptyHybrid.shortTerm,
           longTerm := [{ memC7 with timestamp := 5 }],
           semantic := [toObject memC7] }, none) := by
  unfold hybridStoreMemory
  rw [if_neg (by norm_num [envOk])]
  rw [if_pos (show defaultMemoryConfig.importanceThreshold ≤ memC7.importance by
    norm_num [defaultMemoryConfig, memC7])]
  rw [if_neg (by norm_num [envOk])]
  rw [show mongoStoreMemory 5 emptyHybrid.longTerm memC7
      = Except.ok [{ memC7 with timestamp := 5 }] from by
    norm_num [mongoStoreMemory, emptyHybrid]]
  rfl

/-- C7, witness: the important concrete memory ends up in the semantic
store of the state reached by its successful hybrid store. -/
theorem c7_store_placement_witness :
    toObject memC7 ∈
      ({ shortTerm := emptyHybrid.shortTerm, longTerm := [{ memC7 with timestamp := 5 }],
         semantic := [toObject memC7] } : HybridState).semantic :=
  (c7_store_placement defaultMemoryConfig envOk 5 emptyHybrid memC7 _
    hybridStore_memC7_eval).1

/-- C10: when the semantic write succeeds but the selected placement write
fails, `StoreMemory` returns an error while the semantic tier already
contains the memory — and neither placement tier does: the semantic write is
not rolled back. -/
theorem c10_semantic_not_rolled_back :
    ∀ (cfg : MemoryConfig) (env : StoreEnv) (now : Nat) (st : HybridState) (m : Memory),
      env.semanticOk = true →
      ((env.longOk = false ∧ cfg.importanceThreshold ≤ m.importance) ∨
        (env.shortOk = false ∧ m.importance < cfg.importanceThreshold)) →
      ((hybridStoreMemory cfg env now st m).2.isSome = true
       ∧ (hybridStoreMemory cfg env now st m).1.semantic = st.semantic ++ [toObject m]
       ∧ toObject m ∈ (hybridStoreMemory cfg env now st m).1.semantic
       ∧ (hybridStoreMemory cfg env now st m).1.longTerm = st.longTerm
       ∧ (hybridStoreMemory cfg env now st m).1.shortTerm = st.shortTerm) := by
  intro cfg env now st m hsem hfail
  have hsem' : ¬ (env.semanticOk = false) := by
    rw [hsem]
    simp
  unfold hybridStoreMemory
  rw [if_neg hsem']
  rcases hfail with ⟨hl, hi⟩ | ⟨hs, hi⟩
  · rw [if_pos hi, if_pos hl]
    exact ⟨rfl, rfl, by simp, rfl, rfl⟩
  · rw [if_neg (not_le.mpr hi), if_pos hs]
    exact ⟨rfl, rfl, by simp, rfl, rfl⟩

/-- C10, witness: storing the important memory with the long-term store
down errors out, yet the semantic write stands. -/
theorem c10_semantic_not_rolled_back_witness :
    (hybridStoreMemory defaultMemoryConfig envLongDown 5 emptyHybrid memC7).2.isSome = true :=
  (c10_semantic_not_rolled_back defaultMemoryConfig envLongDown 5 emptyHybrid memC7 rfl
    (Or.inl ⟨rfl, by norm_num [defaultMemoryConfig, memC7]⟩)).1

/-! ## Claim C8 — tag search semantics (helper lemmas first) -/

theorem mem_sInter (st : RedisState) (keys : List String) (memberID : String)
    (h : keys ≠ []) :
    memberID ∈ sInter st keys ↔ ∀ k ∈ keys, memberID ∈ sMembers st k := by
  cases keys with
  | nil => exact absurd rfl h
  | cons k rest =>
    unfold sInter
    simp only [List.mem_filter, List.all_eq_true, List.elem_iff, List.forall_mem_cons]

theorem mem_mongoSearch (st : MongoState) (agentID : String) (tags : List String)
    (d : Memory) :
    d ∈ mongoSearchMemories st agentID tags ↔
      (d ∈ st ∧ d.agentID = agentID ∧ (tags = [] ∨ ∃ t ∈ tags, t ∈ d.tags)) := by
  unfold mongoSearchMemories mongoMatches
  simp only [List.mem_filter, Bool.and_eq_true, Bool.or_eq_true, decide_eq_true_eq,
    List.isEmpty_iff, List.any_eq_true, List.elem_iff]

theorem mem_redisSearch (now : Nat) (st : RedisState) (agentID : String)
    (tags : List String) (m : Memory) (h : tags ≠ []) :
    m ∈ redisSearchMemories now st agentID tags ↔
      ∃ memoryID, (∀ t ∈ tags, memoryID ∈ sMembers st (tagKey agentID t))
        ∧ redisGetMemory now st agentID memoryID = some m := by
  unfold redisSearchMemories
  rw [if_pos (by simpa [List.length_pos] using h)]
  simp only [List.mem_filterMap]
  constructor
  · rintro ⟨memoryID, hmem, hget⟩
    refine ⟨memoryID, ?_, hget⟩
    have hmap : ∀ k ∈ tags.map (tagKey agentID), memoryID ∈ sMembers st k :=
      (mem_sInter st (tags.map (tagKey agentID)) memoryID (by simpa using h)).mp hmem
    intro t ht
    exact hmap (tagKey agentID t) (List.mem_map_of_mem _ ht)
  · rintro ⟨memoryID, hall, hget⟩
    refine ⟨memoryID, ?_, hget⟩
    refine (mem_sInter st (tags.map (tagKey agentID)) memoryID (by simpa using h)).mpr ?_
    intro k hk
    rcases List.mem_map.mp hk with ⟨t, ht, rfl⟩
    exact hall t ht

/-- C8, counterexample: the Mongo tier returns a memory that carries only
one of the two requested tags — `$in` is any-match, refuting the claim that
every tier intersects across tag indexes. -/
theorem c8_mongo_any_match :
    mongoSearchMemories [memC8] "a" ["x", "y"] = [memC8]
    ∧ memC8.tags.contains "y" = false := by
  constructor
  · rfl
  · rfl

/-- C8, amended: with empty tags each tier returns all of the agent's
(visible) memories; with tags, the Redis tier returns exactly the
still-readable memories whose id lies in the intersection of all per-tag
index sets, while the Mongo tier returns exactly the agent's memories
carrying at least one of the tags (`$in` any-match, not intersection); the
hybrid search concatenates the short- and long-term results. -/
theorem c8_tag_search_semantics :
    (∀ (st : MongoState) (agentID : String) (tags : List String) (d : Memory),
        d ∈ mongoSearchMemories st agentID tags ↔
          (d ∈ st ∧ d.agentID = agentID ∧ (tags = [] ∨ ∃ t ∈ tags, t ∈ d.tags)))
    ∧ (∀ (st : RedisState) (keys : List String) (memberID : String), keys ≠ [] →
        (memberID ∈ sInter st keys ↔ ∀ k ∈ keys, memberID ∈ sMembers st k))
    ∧ (∀ (now : Nat) (st : RedisState) (agentID : String) (tags : List String)
          (m : Memory), tags ≠ [] →
        (m ∈ redisSearchMemories now st agentID tags ↔
          ∃ memoryID, (∀ t ∈ tags, memoryID ∈ sMembers st (tagKey agentID t))
            ∧ redisGetMemory now st agentID memoryID = some m))
    ∧ (∀ (now : Nat) (st : RedisState) (agentID : String),
        redisSearchMemories now st agentID []
          = (sMembers st (agentKey agentID)).filterMap
              (fun memoryID => redisGetMemory now st agentID memoryID))
    ∧ (∀ (now : Nat) (st : HybridState) (agentID : String) (tags : List String),
        hybridSearchMemories now st agentID tags
          = redisSearchMemories now st.shortTerm agentID tags ++
              mongoSearchMemories st.longTerm agentID tags) := by
  refine ⟨mem_mongoSearch, mem_sInter, mem_redisSearch, ?_, fun now st agentID tags => rfl⟩
  intro now st agentID
  unfold redisSearchMemories
  rw [if_neg (by simp)]

/-- C8, witness: the intersection characterization applied to the concrete
one-tag Redis state. -/
theorem c8_tag_search_semantics_witness :
    memC8 ∈ redisSearchMemories 5 redisC8 "a" ["x"] ↔
      ∃ memoryID, (∀ t ∈ ["x"], memoryID ∈ sMembers redisC8 (tagKey "a" t))
        ∧ redisGetMemory 5 redisC8 "a" memoryID = some memC8 :=
  c8_tag_search_semantics.2.2.1 5 redisC8 "a" ["x"] memC8 (by decide)

end HiveMind
